import Mathlib

/-!
Shallow embedding of the blog application in `main.py`: a Flask app with a
SQLite store holding users, blog posts and comments, session-based login and a
single hardcoded admin identity (user id 1).  Each request handler of the
source becomes a Lean function from an application state (plus the submitted
form data, `none` standing for a GET request or a submission that failed
validation) to a result holding the new state, the flashed messages and the
HTTP response.  Machine-assigned primary keys are modelled as SQLite assigns
them for an INTEGER PRIMARY KEY column: one more than the largest key in use.
-/

namespace Blog

/-- User row of table `users` (main.py, class User): id primary key, name,
unique email, password (stored hashed). -/
structure User where
  id : Nat
  name : String
  email : String
  password : String
deriving Repr, DecidableEq

/-- Post row of table `blog_posts` (main.py, class BlogPost): id primary key,
author foreign key into `users`, unique title, subtitle, date (a display
string), body, image URL. -/
structure BlogPost where
  id : Nat
  author_id : Nat
  title : String
  subtitle : String
  date : String
  body : String
  img_url : String
deriving Repr, DecidableEq

/-- Comment row of table `comments` (main.py, class Comment): id primary key,
author foreign key into `users`, parent-post foreign key into `blog_posts`,
text. -/
structure Comment where
  id : Nat
  author_id : Nat
  post_id : Nat
  text : String
deriving Repr, DecidableEq

/-- The relational store: the three tables created by `db.create_all()`. -/
structure DBState where
  users : List User
  posts : List BlogPost
  comments : List Comment
deriving Repr, DecidableEq

/-- Application state seen by a request: the store plus the session, which
holds the id of the currently logged-in user (flask-login), or `none` for an
anonymous client. -/
structure AppState where
  db : DBState
  session : Option Nat
deriving Repr, DecidableEq

/-- HTTP response of a handler: a rendered page, the rendered detail page of a
post with its comments (post.html receives `post` and `comments`), a redirect,
or an abort with a status code. -/
inductive Response where
  | renderPage : String → Response
  | renderPost : BlogPost → List Comment → Response
  | redirect : String → Response
  | abort : Nat → Response
deriving Repr, DecidableEq

/-- Result of one handler invocation: the state after the handler committed,
the messages it flashed, and its response. -/
structure HandlerResult where
  state : AppState
  flashes : List String
  response : Response
deriving Repr, DecidableEq

/-- Modelled from the spec: the external password hasher
(`werkzeug.security.generate_password_hash`, method "pbkdf2") is an opaque
one-way primitive excluded from the source; its output is a scheme-tagged
digest string, never the plaintext.  The random salt is abstracted away, so
hashing is deterministic here and verification recomputes the hash. -/
def generate_password_hash (password : String) : String :=
  "pbkdf2:" ++ password

/-- Modelled from the spec: `werkzeug.security.check_password_hash` verifies a
candidate password against a stored hash. -/
def check_password_hash (stored : String) (password : String) : Bool :=
  stored == generate_password_hash password

/-- Method `User.check_password` (main.py lines 76-77). -/
def User.check_password (u : User) (password : String) : Bool :=
  check_password_hash u.password password

/-- SQLite key assignment for an INTEGER PRIMARY KEY: one more than the
largest key in use (1 on an empty table). -/
def nextId (ids : List Nat) : Nat :=
  ids.foldr max 0 + 1

/-- The `load_user` callback (main.py lines 44-46): resolve a session user id
to its User row (`db.get_or_404`); `none` makes the request fail with 404. -/
def loadUser (db : DBState) (uid : Nat) : Option User :=
  db.users.find? (fun u => u.id == uid)

/-- Startup environment: the externally supplied `FLASK_KEY` variable, absent
when the deployment never set it (`os.environ.get` yields None). -/
structure Env where
  flask_key : Option String
deriving Repr, DecidableEq

/-- Application configuration fixed at startup. -/
structure AppConfig where
  secret_key : Option String
deriving Repr, DecidableEq

/-- Startup (main.py lines 17-18): `app.config['SECRET_KEY'] =
os.environ.get("FLASK_KEY")`.  The source performs no check and raises
nothing, so startup always succeeds, storing whatever the environment gave,
including `none`. -/
def appStartup (env : Env) : Except String AppConfig :=
  .ok { secret_key := env.flask_key }

/-- The `RegisterForm` submitted to /register (fields read in main.py lines
139-146; the form class itself lives in forms.py, outside the provided
source — modelled from the spec: name, email, password). -/
structure RegisterForm where
  name : String
  email : String
  password : String
deriving Repr, DecidableEq

/-- The `LoginForm` submitted to /login (fields read in main.py lines
160-168; modelled from the spec: email, password). -/
structure LoginForm where
  email : String
  password : String
deriving Repr, DecidableEq

/-- The `CommentForm` submitted on a post detail page (field read in main.py
line 203; modelled from the spec: the comment text). -/
structure CommentForm where
  comment : String
deriving Repr, DecidableEq

/-- The `CreatePostForm` submitted to /new-post and /edit-post (fields read in
main.py lines 228-231 and 253-257; modelled from the spec: title, subtitle,
image URL, body — the author shown on the edit form is not read back on
submission). -/
structure CreatePostForm where
  title : String
  subtitle : String
  img_url : String
  body : String
deriving Repr, DecidableEq

/-- Calendar date supplied by `date.today()`. -/
structure CalDate where
  year : Nat
  month : Nat
  day : Nat
deriving Repr, DecidableEq

/-- English month name, as `%B` renders it. -/
def monthName : Nat → String
  | 1 => "January"
  | 2 => "February"
  | 3 => "March"
  | 4 => "April"
  | 5 => "May"
  | 6 => "June"
  | 7 => "July"
  | 8 => "August"
  | 9 => "September"
  | 10 => "October"
  | 11 => "November"
  | 12 => "December"
  | _ => ""

/-- Zero-padded two-digit rendering, as `%d` renders the day. -/
def pad2 (n : Nat) : String :=
  if n < 10 then "0" ++ toString n else toString n

/-- Date formatting `strftime("%B %d, %Y")` used at main.py line 233:
full month name, zero-padded day, comma, year. -/
def strftimeBdY (d : CalDate) : String :=
  monthName d.month ++ " " ++ pad2 d.day ++ ", " ++ toString d.year

/-- The `admin_only` decorator (main.py lines 117-126): anonymous callers are
rejected with 403; an authenticated session whose id no longer resolves fails
with 404 inside `load_user`; a resolved user with id other than 1 is rejected
with 403; only then does the wrapped handler run, receiving the resolved
current user. -/
def admin_only (handler : User → AppState → HandlerResult) (s : AppState) :
    HandlerResult :=
  match s.session with
  | none => ⟨s, [], .abort 403⟩
  | some uid =>
    match loadUser s.db uid with
    | none => ⟨s, [], .abort 404⟩
    | some u =>
      if u.id ≠ 1 then ⟨s, [], .abort 403⟩
      else handler u s

/-- Handler for /register (main.py lines 129-153).  On a validated
submission: if the email already exists, flash and redirect to login with no
insert; otherwise hash the password, insert the new user, log the new user in
and redirect to the post listing.  Otherwise render the form. -/
def register (form : Option RegisterForm) (s : AppState) : HandlerResult :=
  match form with
  | none => ⟨s, [], .renderPage "register.html"⟩
  | some f =>
    if (s.db.users.find? (fun u => u.email == f.email)).isSome then
      ⟨s, ["You\x27ve signed up with this email, log in instead!"],
        .redirect "login"⟩
    else
      let hashed := generate_password_hash f.password
      let uid := nextId (s.db.users.map User.id)
      let newUser : User := ⟨uid, f.name, f.email, hashed⟩
      ⟨⟨{ s.db with users := s.db.users ++ [newUser] }, some uid⟩, [],
        .redirect "get_all_posts"⟩

/-- Handler for /login (main.py lines 156-175).  On a validated submission:
unknown email flashes and redirects back to login; a verified password logs
the user in and redirects to the listing; a failed verification flashes and
redirects back to login with no state change. -/
def login (form : Option LoginForm) (s : AppState) : HandlerResult :=
  match form with
  | none => ⟨s, [], .renderPage "login.html"⟩
  | some f =>
    match s.db.users.find? (fun u => u.email == f.email) with
    | none =>
      ⟨s, ["That email does not exist, please try again."], .redirect "login"⟩
    | some u =>
      if u.check_password f.password then
        ⟨{ s with session := some u.id }, [], .redirect "get_all_posts"⟩
      else
        ⟨s, ["Incorrect password, please try again."], .redirect "login"⟩

/-- Handler for /logout (main.py lines 178-181): clear the session, redirect
to the listing. -/
def logout (s : AppState) : HandlerResult :=
  ⟨{ s with session := none }, [], .redirect "get_all_posts"⟩

/-- Handler for / (main.py lines 184-188): render all posts. -/
def get_all_posts (s : AppState) : HandlerResult :=
  ⟨s, [], .renderPage "index.html"⟩

/-- Handler for /post/{id} (main.py lines 191-219).  Load the post or 404.
On a validated comment submission: an anonymous caller is flashed and
redirected to login with no insert; otherwise the comment is inserted, linked
to the current user and this post, and the response redirects back to this
detail page.  Without a submission the detail page is rendered with the
post and all comments whose post_id matches. -/
def show_post (post_id : Nat) (form : Option CommentForm) (s : AppState) :
    HandlerResult :=
  match s.db.posts.find? (fun p => p.id == post_id) with
  | none => ⟨s, [], .abort 404⟩
  | some requested_post =>
    match form with
    | some f =>
      match s.session with
      | none =>
        ⟨s, ["Please log in to live comments on blog posts!"],
          .redirect "login"⟩
      | some uid =>
        match loadUser s.db uid with
        | none => ⟨s, [], .abort 404⟩
        | some u =>
          let cid := nextId (s.db.comments.map Comment.id)
          let newComment : Comment := ⟨cid, u.id, post_id, f.comment⟩
          ⟨⟨{ s.db with comments := s.db.comments ++ [newComment] },
              s.session⟩, [],
            .redirect ("show_post/" ++ toString post_id)⟩
    | none =>
      ⟨s, [],
        .renderPost requested_post
          (s.db.comments.filter (fun c => c.post_id == post_id))⟩

/-- Handler for /new-post (main.py lines 222-238), wrapped by `admin_only`.
On a validated submission a new post is inserted, authored by the current
user, dated `date.today().strftime("%B %d, %Y")`, and the response redirects
to the listing.  `blog_posts.title` is declared unique (main.py line 55) and
the handler catches nothing, so a title already held by a stored post makes
`db.session.commit()` raise an integrity error that propagates as an
unhandled server error (500) with nothing persisted. -/
def add_new_post (form : Option CreatePostForm) (today : CalDate)
    (s : AppState) : HandlerResult :=
  admin_only
    (fun u s =>
      match form with
      | none => ⟨s, [], .renderPage "make-post.html"⟩
      | some f =>
        if s.db.posts.any (fun p => p.title == f.title) then
          ⟨s, [], .abort 500⟩
        else
          let pid := nextId (s.db.posts.map BlogPost.id)
          let newPost : BlogPost :=
            ⟨pid, u.id, f.title, f.subtitle, strftimeBdY today, f.body,
              f.img_url⟩
          ⟨⟨{ s.db with posts := s.db.posts ++ [newPost] }, s.session⟩, [],
            .redirect "get_all_posts"⟩)
    s

/-- Handler for /edit-post/{id} (main.py lines 241-260), wrapped by
`admin_only`.  Load the post or 404.  On a validated submission overwrite
title, subtitle, image URL, author (reset to the current user) and body — the
date field is not touched — and redirect to the post detail page.  Because
`blog_posts.title` is unique (main.py line 55) and nothing is caught, a
submitted title already held by a different post makes the commit raise an
integrity error that propagates as an unhandled server error (500) and
persists nothing; rewriting the post's own title to itself is no
violation. -/
def edit_post (post_id : Nat) (form : Option CreatePostForm) (s : AppState) :
    HandlerResult :=
  admin_only
    (fun u s =>
      match s.db.posts.find? (fun p => p.id == post_id) with
      | none => ⟨s, [], .abort 404⟩
      | some post =>
        match form with
        | none => ⟨s, [], .renderPage "make-post.html"⟩
        | some f =>
          if s.db.posts.any (fun p => p.id != post_id && p.title == f.title)
          then ⟨s, [], .abort 500⟩
          else
            let posts' := s.db.posts.map (fun p =>
              if p.id == post_id then
                { p with
                  title := f.title
                  subtitle := f.subtitle
                  img_url := f.img_url
                  author_id := u.id
                  body := f.body }
              else p)
            ⟨⟨{ s.db with posts := posts' }, s.session⟩, [],
              .redirect ("show_post/" ++ toString post.id)⟩)
    s

/-- Handler for /delete/{id} (main.py lines 263-269), wrapped by
`admin_only`.  Load the post or 404, delete that post row, redirect to the
listing.  Nothing else is touched: the source issues no comment cleanup. -/
def delete_post (post_id : Nat) (s : AppState) : HandlerResult :=
  admin_only
    (fun _u s =>
      match s.db.posts.find? (fun p => p.id == post_id) with
      | none => ⟨s, [], .abort 404⟩
      | some _post =>
        ⟨⟨{ s.db with posts := s.db.posts.filter (fun p => p.id != post_id) },
            s.session⟩, [],
          .redirect "get_all_posts"⟩)
    s

/-- Handler for /about (main.py lines 272-274). -/
def about (s : AppState) : HandlerResult :=
  ⟨s, [], .renderPage "about.html"⟩

/-- Handler for /contact (main.py lines 277-279). -/
def contact (s : AppState) : HandlerResult :=
  ⟨s, [], .renderPage "contact.html"⟩

/-- The empty store produced by `db.create_all()` on a fresh database, with an
anonymous session. -/
def initialState : AppState :=
  ⟨⟨[], [], []⟩, none⟩

/-- States reachable from the fresh database by any sequence of requests. -/
inductive Reachable : AppState → Prop where
  | init : Reachable initialState
  | step_register (f : Option RegisterForm) {s : AppState} :
      Reachable s → Reachable (register f s).state
  | step_login (f : Option LoginForm) {s : AppState} :
      Reachable s → Reachable (login f s).state
  | step_logout {s : AppState} : Reachable s → Reachable (logout s).state
  | step_get_all_posts {s : AppState} :
      Reachable s → Reachable (get_all_posts s).state
  | step_show_post (pid : Nat) (f : Option CommentForm) {s : AppState} :
      Reachable s → Reachable (show_post pid f s).state
  | step_add_new_post (f : Option CreatePostForm) (today : CalDate)
      {s : AppState} : Reachable s → Reachable (add_new_post f today s).state
  | step_edit_post (pid : Nat) (f : Option CreatePostForm) {s : AppState} :
      Reachable s → Reachable (edit_post pid f s).state
  | step_delete_post (pid : Nat) {s : AppState} :
      Reachable s → Reachable (delete_post pid s).state
  | step_about {s : AppState} : Reachable s → Reachable (about s).state
  | step_contact {s : AppState} : Reachable s → Reachable (contact s).state

/-- The referential-integrity invariant of the spec, decidable form: every
comment points at an existing post and an existing user, and every post
points at an existing user. -/
def dbInvariant (db : DBState) : Bool :=
  db.comments.all (fun c =>
    db.posts.any (fun p => p.id == c.post_id) &&
    db.users.any (fun u => u.id == c.author_id)) &&
  db.posts.all (fun p => db.users.any (fun u => u.id == p.author_id))

/-- The user-reference half of the invariant: every post and every comment
points at an existing user. -/
def userRefsOK (db : DBState) : Prop :=
  (∀ p ∈ db.posts, ∃ u ∈ db.users, u.id = p.author_id) ∧
  (∀ c ∈ db.comments, ∃ u ∈ db.users, u.id = c.author_id)

/-- Run exercising claim C1: register the first user (who becomes the
admin), create a post, comment on it, then delete the post. -/
def c1Run : AppState :=
  (delete_post 1
    (show_post 1 (some ⟨"Nice post"⟩)
      (add_new_post (some ⟨"T", "Sub", "http://img", "Body"⟩) ⟨2024, 4, 5⟩
        (register (some ⟨"Admin", "a@b.c", "pw"⟩)
          initialState).state).state).state).state

end Blog

namespace Blog

theorem admin_only_rejects (handler : User → AppState → HandlerResult)
    (s : AppState)
    (h : s.session = none ∨
      ∃ uid u, s.session = some uid ∧ loadUser s.db uid = some u ∧ u.id ≠ 1) :
    admin_only handler s = ⟨s, [], .abort 403⟩ := by
  unfold admin_only
  rcases h with h | ⟨uid, u, hs, hu, hne⟩
  · rw [h]
  · simp only [hs, hu, if_pos hne]

theorem admin_only_passes (handler : User → AppState → HandlerResult)
    (s : AppState) (uid : Nat) (u : User)
    (hs : s.session = some uid) (hu : loadUser s.db uid = some u)
    (h1 : u.id = 1) :
    admin_only handler s = handler u s := by
  unfold admin_only
  simp only [hs, hu, h1]
  simp

/-- Claim C2: the source startup assigns `os.environ.get("FLASK_KEY")` unchecked:
with the key absent it succeeds and stores no secret key, instead of failing
fast. -/
theorem c2_startup_without_key_proceeds :
    appStartup ⟨none⟩ = .ok ⟨none⟩ := rfl

/-- Claim C3: a caller that is anonymous, or authenticated as a user whose id is
not 1, receives 403 from each of /new-post, /edit-post/{id} and /delete/{id};
the state is returned unchanged and the wrapped handler never runs. -/
theorem c3_admin_routes_forbidden (s : AppState)
    (f₁ f₂ : Option CreatePostForm) (today : CalDate) (pid qid : Nat)
    (h : s.session = none ∨
      ∃ uid u, s.session = some uid ∧ loadUser s.db uid = some u ∧ u.id ≠ 1) :
    add_new_post f₁ today s = ⟨s, [], .abort 403⟩ ∧
    edit_post pid f₂ s = ⟨s, [], .abort 403⟩ ∧
    delete_post qid s = ⟨s, [], .abort 403⟩ :=
  ⟨admin_only_rejects _ s h, admin_only_rejects _ s h,
    admin_only_rejects _ s h⟩

theorem c3_admin_routes_forbidden_witness :
    add_new_post none ⟨2024, 1, 1⟩
        ⟨⟨[⟨2, "Bob", "b@c.d", "pbkdf2:x"⟩], [], []⟩, some 2⟩ =
      ⟨⟨⟨[⟨2, "Bob", "b@c.d", "pbkdf2:x"⟩], [], []⟩, some 2⟩, [],
        .abort 403⟩ ∧
    edit_post 1 none ⟨⟨[⟨2, "Bob", "b@c.d", "pbkdf2:x"⟩], [], []⟩, some 2⟩ =
      ⟨⟨⟨[⟨2, "Bob", "b@c.d", "pbkdf2:x"⟩], [], []⟩, some 2⟩, [],
        .abort 403⟩ ∧
    delete_post 1 ⟨⟨[⟨2, "Bob", "b@c.d", "pbkdf2:x"⟩], [], []⟩, some 2⟩ =
      ⟨⟨⟨[⟨2, "Bob", "b@c.d", "pbkdf2:x"⟩], [], []⟩, some 2⟩, [],
        .abort 403⟩ :=
  c3_admin_routes_forbidden _ none none ⟨2024, 1, 1⟩ 1 1
    (Or.inr ⟨2, ⟨2, "Bob", "b@c.d", "pbkdf2:x"⟩, rfl, rfl, by decide⟩)

/-- Claim C10: the first user registered on a fresh store receives id 1 and is
logged in as id 1; the guard runs the wrapped handler exactly when the
resolved current user has id 1 and rejects every other id with 403. -/
theorem c10_first_registered_user_is_admin (f : RegisterForm) :
    (register (some f) initialState).state.session = some 1 ∧
    (register (some f) initialState).state.db.users =
      [⟨1, f.name, f.email, generate_password_hash f.password⟩] ∧
    (∀ (handler : User → AppState → HandlerResult) (s : AppState)
        (uid : Nat) (u : User),
      s.session = some uid → loadUser s.db uid = some u →
      (u.id = 1 → admin_only handler s = handler u s) ∧
      (u.id ≠ 1 → admin_only handler s = ⟨s, [], .abort 403⟩)) := by
  refine ⟨rfl, rfl, ?_⟩
  intro handler s uid u hs hu
  exact ⟨fun h1 => admin_only_passes handler s uid u hs hu h1,
    fun hne => admin_only_rejects handler s (Or.inr ⟨uid, u, hs, hu, hne⟩)⟩

/-- Claim C6: registering with an email already present changes nothing, flashes
and redirects to the login page. -/
theorem c6_register_existing_email (f : RegisterForm) (s : AppState)
    (hdup : (s.db.users.find? (fun u => u.email == f.email)).isSome = true) :
    register (some f) s =
      ⟨s, ["You\x27ve signed up with this email, log in instead!"],
        .redirect "login"⟩ := by
  unfold register
  simp only [hdup, if_true]

theorem c6_register_existing_email_witness :
    register (some ⟨"Ann", "a@b.c", "pw2"⟩)
        ⟨⟨[⟨1, "Admin", "a@b.c", "pbkdf2:pw"⟩], [], []⟩, none⟩ =
      ⟨⟨⟨[⟨1, "Admin", "a@b.c", "pbkdf2:pw"⟩], [], []⟩, none⟩,
        ["You\x27ve signed up with this email, log in instead!"],
        .redirect "login"⟩ :=
  c6_register_existing_email ⟨"Ann", "a@b.c", "pw2"⟩
    ⟨⟨[⟨1, "Admin", "a@b.c", "pbkdf2:pw"⟩], [], []⟩, none⟩ (by decide)

end Blog

namespace Blog

theorem generate_password_hash_ne_plaintext (p : String) :
    generate_password_hash p ≠ p := by
  intro h
  have hlen : (("pbkdf2:" : String) ++ p).length = p.length := by
    rw [show ("pbkdf2:" : String) ++ p = generate_password_hash p from rfl, h]
  rw [String.length_append] at hlen
  have h7 : ("pbkdf2:" : String).length = 7 := by decide
  omega

/-- Claim C5: registering a fresh email appends exactly one user whose password is
the hash of the submitted one (never the plaintext), logs that user in and
redirects to the listing; posts and comments are untouched. -/
theorem c5_register_fresh_email (f : RegisterForm) (s : AppState)
    (hfresh : s.db.users.find? (fun u => u.email == f.email) = none) :
    register (some f) s =
      ⟨⟨{ s.db with users := s.db.users ++
          [⟨nextId (s.db.users.map User.id), f.name, f.email,
            generate_password_hash f.password⟩] },
        some (nextId (s.db.users.map User.id))⟩, [],
        .redirect "get_all_posts"⟩ ∧
    generate_password_hash f.password ≠ f.password := by
  refine ⟨?_, generate_password_hash_ne_plaintext f.password⟩
  unfold register
  simp only [hfresh, Option.isSome_none, Bool.false_eq_true, if_false]

theorem c5_register_fresh_email_witness :
    register (some ⟨"Ann", "ann@b.c", "pw"⟩)
        ⟨⟨[⟨1, "Admin", "a@b.c", "pbkdf2:q"⟩], [], []⟩, none⟩ =
      ⟨⟨⟨[⟨1, "Admin", "a@b.c", "pbkdf2:q"⟩,
          ⟨2, "Ann", "ann@b.c", generate_password_hash "pw"⟩], [], []⟩,
        some 2⟩, [], .redirect "get_all_posts"⟩ ∧
    generate_password_hash "pw" ≠ "pw" :=
  c5_register_fresh_email ⟨"Ann", "ann@b.c", "pw"⟩
    ⟨⟨[⟨1, "Admin", "a@b.c", "pbkdf2:q"⟩], [], []⟩, none⟩ (by decide)

/-- Claim C7: logging in with an email that resolves to a stored user establishes
the session for that user and redirects to the listing when the password
verifies against the stored hash; otherwise nothing changes, the incorrect
password flash is set and the response redirects back to login. -/
theorem c7_login_existing_email (f : LoginForm) (s : AppState) (u : User)
    (hfind : s.db.users.find? (fun x => x.email == f.email) = some u) :
    (u.check_password f.password = true →
      login (some f) s =
        ⟨{ s with session := some u.id }, [], .redirect "get_all_posts"⟩) ∧
    (u.check_password f.password = false →
      login (some f) s =
        ⟨s, ["Incorrect password, please try again."],
          .redirect "login"⟩) := by
  unfold login
  simp only [hfind]
  constructor
  · intro h
    simp only [h, if_true]
  · intro h
    simp only [h, Bool.false_eq_true, if_false]

theorem c7_login_existing_email_witness :
    ((⟨1, "Admin", "a@b.c", "pbkdf2:pw"⟩ : User).check_password "pw" = true ∧
      login (some ⟨"a@b.c", "pw"⟩)
          ⟨⟨[⟨1, "Admin", "a@b.c", "pbkdf2:pw"⟩], [], []⟩, none⟩ =
        ⟨⟨⟨[⟨1, "Admin", "a@b.c", "pbkdf2:pw"⟩], [], []⟩, some 1⟩, [],
          .redirect "get_all_posts"⟩) ∧
    ((⟨1, "Admin", "a@b.c", "pbkdf2:pw"⟩ : User).check_password "bad" =
        false ∧
      login (some ⟨"a@b.c", "bad"⟩)
          ⟨⟨[⟨1, "Admin", "a@b.c", "pbkdf2:pw"⟩], [], []⟩, none⟩ =
        ⟨⟨⟨[⟨1, "Admin", "a@b.c", "pbkdf2:pw"⟩], [], []⟩, none⟩,
          ["Incorrect password, please try again."], .redirect "login"⟩) :=
  ⟨⟨by decide,
    (c7_login_existing_email ⟨"a@b.c", "pw"⟩
      ⟨⟨[⟨1, "Admin", "a@b.c", "pbkdf2:pw"⟩], [], []⟩, none⟩
      ⟨1, "Admin", "a@b.c", "pbkdf2:pw"⟩ (by decide)).1 (by decide)⟩,
   ⟨by decide,
    (c7_login_existing_email ⟨"a@b.c", "bad"⟩
      ⟨⟨[⟨1, "Admin", "a@b.c", "pbkdf2:pw"⟩], [], []⟩, none⟩
      ⟨1, "Admin", "a@b.c", "pbkdf2:pw"⟩ (by decide)).2 (by decide)⟩⟩

/-- Claim C4: a validated comment submission on an existing post creates nothing
and redirects to login when the caller is anonymous; when the session
resolves to a user it appends exactly one comment carrying that user id and
this post id, touches nothing else, and redirects back to this detail
page. -/
theorem c4_comment_submission (pid : Nat) (f : CommentForm) (s : AppState)
    (post : BlogPost)
    (hpost : s.db.posts.find? (fun p => p.id == pid) = some post) :
    (s.session = none →
      show_post pid (some f) s =
        ⟨s, ["Please log in to live comments on blog posts!"],
          .redirect "login"⟩) ∧
    (∀ uid u, s.session = some uid → loadUser s.db uid = some u →
      show_post pid (some f) s =
        ⟨⟨{ s.db with comments := s.db.comments ++
            [⟨nextId (s.db.comments.map Comment.id), u.id, pid,
              f.comment⟩] },
          some uid⟩, [],
          .redirect ("show_post/" ++ toString pid)⟩) := by
  unfold show_post
  simp only [hpost]
  constructor
  · intro hanon
    simp only [hanon]
  · intro uid u hs hu
    simp only [hs, hu]

theorem c4_comment_submission_witness :
    show_post 1 (some ⟨"Nice"⟩)
        ⟨⟨[⟨1, "Admin", "a@b.c", "pbkdf2:q"⟩],
            [⟨1, 1, "T", "S", "April 05, 2024", "B", "I"⟩], []⟩,
          some 1⟩ =
      ⟨⟨⟨[⟨1, "Admin", "a@b.c", "pbkdf2:q"⟩],
          [⟨1, 1, "T", "S", "April 05, 2024", "B", "I"⟩],
          [⟨1, 1, 1, "Nice"⟩]⟩, some 1⟩, [],
        .redirect ("show_post/" ++ toString 1)⟩ :=
  (c4_comment_submission 1 ⟨"Nice"⟩
      ⟨⟨[⟨1, "Admin", "a@b.c", "pbkdf2:q"⟩],
          [⟨1, 1, "T", "S", "April 05, 2024", "B", "I"⟩], []⟩, some 1⟩
      ⟨1, 1, "T", "S", "April 05, 2024", "B", "I"⟩ (by decide)).2
    1 ⟨1, "Admin", "a@b.c", "pbkdf2:q"⟩ rfl (by decide)

end Blog

namespace Blog

/-- Claim C8: an admin edit of an existing post, submitting a title that no
other stored post holds (otherwise the unique-title constraint makes the
commit fail with an unhandled 500 and nothing persists), overwrites title,
subtitle, image URL, body and author (reset to the current admin) of the
posts whose id matches, leaves every other post and the edited post's id and
date unchanged, leaves users and comments unchanged, and redirects to the
post detail page. -/
theorem c8_edit_post_overwrites (pid : Nat) (f : CreatePostForm)
    (s : AppState) (uid : Nat) (admin : User) (post : BlogPost)
    (hs : s.session = some uid) (hu : loadUser s.db uid = some admin)
    (hadmin : admin.id = 1)
    (hfind : s.db.posts.find? (fun p => p.id == pid) = some post)
    (htitle : s.db.posts.any (fun p => p.id != pid && p.title == f.title) =
      false) :
    edit_post pid (some f) s =
      ⟨⟨{ s.db with posts := s.db.posts.map (fun p =>
            if p.id == pid then
              { p with
                title := f.title
                subtitle := f.subtitle
                img_url := f.img_url
                author_id := admin.id
                body := f.body }
            else p) },
          some uid⟩, [],
        .redirect ("show_post/" ++ toString post.id)⟩ ∧
    (edit_post pid (some f) s).state.db.posts.map BlogPost.date =
      s.db.posts.map BlogPost.date ∧
    (edit_post pid (some f) s).state.db.posts.map BlogPost.id =
      s.db.posts.map BlogPost.id := by
  have heq : edit_post pid (some f) s =
      ⟨⟨{ s.db with posts := s.db.posts.map (fun p =>
            if p.id == pid then
              { p with
                title := f.title
                subtitle := f.subtitle
                img_url := f.img_url
                author_id := admin.id
                body := f.body }
            else p) },
          some uid⟩, [],
        .redirect ("show_post/" ++ toString post.id)⟩ := by
    unfold edit_post
    rw [admin_only_passes _ s uid admin hs hu hadmin, hs]
    simp only [hfind, htitle, Bool.false_eq_true, if_false]
  refine ⟨heq, ?_, ?_⟩
  · rw [heq]
    simp only [List.map_map]
    exact List.map_congr_left (fun p _ => by
      simp only [Function.comp]
      split <;> rfl)
  · rw [heq]
    simp only [List.map_map]
    exact List.map_congr_left (fun p _ => by
      simp only [Function.comp]
      split <;> rfl)

theorem c8_edit_post_overwrites_witness :
    edit_post 1 (some ⟨"T2", "S2", "I2", "B2"⟩)
        ⟨⟨[⟨1, "Admin", "a@b.c", "pbkdf2:q"⟩],
            [⟨1, 1, "T", "S", "April 05, 2024", "B", "I"⟩,
             ⟨2, 1, "U", "V", "May 01, 2024", "C", "J"⟩],
            [⟨1, 1, 1, "Nice"⟩]⟩, some 1⟩ =
      ⟨⟨⟨[⟨1, "Admin", "a@b.c", "pbkdf2:q"⟩],
          [⟨1, 1, "T2", "S2", "April 05, 2024", "B2", "I2"⟩,
           ⟨2, 1, "U", "V", "May 01, 2024", "C", "J"⟩],
          [⟨1, 1, 1, "Nice"⟩]⟩, some 1⟩, [],
        .redirect ("show_post/" ++ toString 1)⟩ ∧
    (edit_post 1 (some ⟨"T2", "S2", "I2", "B2"⟩)
        ⟨⟨[⟨1, "Admin", "a@b.c", "pbkdf2:q"⟩],
            [⟨1, 1, "T", "S", "April 05, 2024", "B", "I"⟩,
             ⟨2, 1, "U", "V", "May 01, 2024", "C", "J"⟩],
            [⟨1, 1, 1, "Nice"⟩]⟩, some 1⟩).state.db.posts.map
        BlogPost.date =
      ["April 05, 2024", "May 01, 2024"] ∧
    (edit_post 1 (some ⟨"T2", "S2", "I2", "B2"⟩)
        ⟨⟨[⟨1, "Admin", "a@b.c", "pbkdf2:q"⟩],
            [⟨1, 1, "T", "S", "April 05, 2024", "B", "I"⟩,
             ⟨2, 1, "U", "V", "May 01, 2024", "C", "J"⟩],
            [⟨1, 1, 1, "Nice"⟩]⟩, some 1⟩).state.db.posts.map
        BlogPost.id =
      [1, 2] := by
  have h := c8_edit_post_overwrites 1 ⟨"T2", "S2", "I2", "B2"⟩
    ⟨⟨[⟨1, "Admin", "a@b.c", "pbkdf2:q"⟩],
        [⟨1, 1, "T", "S", "April 05, 2024", "B", "I"⟩,
         ⟨2, 1, "U", "V", "May 01, 2024", "C", "J"⟩],
        [⟨1, 1, 1, "Nice"⟩]⟩, some 1⟩
    1 ⟨1, "Admin", "a@b.c", "pbkdf2:q"⟩
    ⟨1, 1, "T", "S", "April 05, 2024", "B", "I"⟩ rfl (by decide) rfl
    (by decide) (by decide)
  refine ⟨?_, ?_, ?_⟩
  · rw [h.1]; decide
  · rw [h.2.1]; decide
  · rw [h.2.2]; decide

theorem le_foldr_max (a : Nat) (l : List Nat) (h : a ∈ l) :
    a ≤ l.foldr max 0 := by
  induction l with
  | nil => cases h
  | cons x xs ih =>
    rcases List.mem_cons.mp h with rfl | h
    · exact Nat.le_max_left a (xs.foldr max 0)
    · exact Nat.le_trans (ih h) (Nat.le_max_right x (xs.foldr max 0))

theorem nextId_fresh (ids : List Nat) : ∀ a ∈ ids, a ≠ nextId ids := by
  intro a ha h
  have hle := le_foldr_max a ids ha
  unfold nextId at h
  omega

/-- Claim C9: a post the admin creates with given title, subtitle, body and
image URL — the creation succeeding, so the submitted title is held by no
stored post, the unique-title constraint otherwise failing the insert with an
unhandled 500 and creating nothing — is returned verbatim by a subsequent
fetch of its detail page, dated with the creation day rendered as full month
name, zero-padded day and year — for example April 05, 2024. -/
theorem c9_create_then_fetch_roundtrip (f : CreatePostForm) (today : CalDate)
    (s : AppState) (uid : Nat) (admin : User)
    (hs : s.session = some uid) (hu : loadUser s.db uid = some admin)
    (hadmin : admin.id = 1)
    (htitle : s.db.posts.any (fun p => p.title == f.title) = false) :
    show_post (nextId (s.db.posts.map BlogPost.id)) none
        (add_new_post (some f) today s).state =
      ⟨(add_new_post (some f) today s).state, [],
        .renderPost
          ⟨nextId (s.db.posts.map BlogPost.id), admin.id, f.title,
            f.subtitle, strftimeBdY today, f.body, f.img_url⟩
          ((add_new_post (some f) today s).state.db.comments.filter
            (fun c =>
              c.post_id == nextId (s.db.posts.map BlogPost.id)))⟩ ∧
    strftimeBdY ⟨2024, 4, 5⟩ = "April 05, 2024" := by
  refine ⟨?_, by decide⟩
  have hred : (add_new_post (some f) today s).state =
      ⟨{ s.db with posts := s.db.posts ++
          [⟨nextId (s.db.posts.map BlogPost.id), admin.id, f.title,
            f.subtitle, strftimeBdY today, f.body, f.img_url⟩] },
        some uid⟩ := by
    unfold add_new_post
    rw [admin_only_passes _ s uid admin hs hu hadmin, hs]
    simp only [htitle, Bool.false_eq_true, if_false]
  rw [hred]
  unfold show_post
  rw [List.find?_append,
    List.find?_eq_none.mpr (fun p hp hbeq => by
      have hne := nextId_fresh (s.db.posts.map BlogPost.id) p.id
        (List.mem_map_of_mem BlogPost.id hp)
      exact hne (by simpa using hbeq)),
    List.find?_cons_of_pos _ (by simp)]
  rfl

theorem c9_create_then_fetch_roundtrip_witness :
    show_post (nextId (([] : List BlogPost).map BlogPost.id)) none
        (add_new_post (some ⟨"T", "S", "I", "B"⟩) ⟨2024, 4, 5⟩
          ⟨⟨[⟨1, "Admin", "a@b.c", "pbkdf2:q"⟩], [], []⟩,
            some 1⟩).state =
      ⟨(add_new_post (some ⟨"T", "S", "I", "B"⟩) ⟨2024, 4, 5⟩
          ⟨⟨[⟨1, "Admin", "a@b.c", "pbkdf2:q"⟩], [], []⟩, some 1⟩).state,
        [],
        .renderPost
          ⟨nextId (([] : List BlogPost).map BlogPost.id), 1, "T", "S",
            strftimeBdY ⟨2024, 4, 5⟩, "B", "I"⟩
          ((add_new_post (some ⟨"T", "S", "I", "B"⟩) ⟨2024, 4, 5⟩
              ⟨⟨[⟨1, "Admin", "a@b.c", "pbkdf2:q"⟩], [], []⟩,
                some 1⟩).state.db.comments.filter
            (fun c =>
              c.post_id == nextId (([] : List BlogPost).map BlogPost.id)))⟩ ∧
    strftimeBdY ⟨2024, 4, 5⟩ = "April 05, 2024" :=
  c9_create_then_fetch_roundtrip ⟨"T", "S", "I", "B"⟩ ⟨2024, 4, 5⟩
    ⟨⟨[⟨1, "Admin", "a@b.c", "pbkdf2:q"⟩], [], []⟩, some 1⟩ 1
    ⟨1, "Admin", "a@b.c", "pbkdf2:q"⟩ rfl (by decide) rfl (by decide)

end Blog

namespace Blog

theorem userRefsOK_append_user (db : DBState) (u : User)
    (h : userRefsOK db) :
    userRefsOK ⟨db.users ++ [u], db.posts, db.comments⟩ := by
  rcases h with ⟨hp, hc⟩
  refine ⟨fun p hp2 => ?_, fun c hc2 => ?_⟩
  · obtain ⟨w, hw, he⟩ := hp p hp2
    exact ⟨w, List.mem_append_left _ hw, he⟩
  · obtain ⟨w, hw, he⟩ := hc c hc2
    exact ⟨w, List.mem_append_left _ hw, he⟩

theorem userRefsOK_add_post (db : DBState) (p : BlogPost)
    (h : userRefsOK db) (hp : ∃ u ∈ db.users, u.id = p.author_id) :
    userRefsOK ⟨db.users, db.posts ++ [p], db.comments⟩ := by
  rcases h with ⟨hps, hc⟩
  refine ⟨fun q hq => ?_, hc⟩
  rcases List.mem_append.mp hq with hq | hq
  · exact hps q hq
  · obtain rfl := List.mem_singleton.mp hq
    exact hp

theorem userRefsOK_add_comment (db : DBState) (c : Comment)
    (h : userRefsOK db) (hcok : ∃ u ∈ db.users, u.id = c.author_id) :
    userRefsOK ⟨db.users, db.posts, db.comments ++ [c]⟩ := by
  rcases h with ⟨hps, hcs⟩
  refine ⟨hps, fun d hd => ?_⟩
  rcases List.mem_append.mp hd with hd | hd
  · exact hcs d hd
  · obtain rfl := List.mem_singleton.mp hd
    exact hcok

theorem userRefsOK_filter_posts (db : DBState) (q : BlogPost → Bool)
    (h : userRefsOK db) :
    userRefsOK ⟨db.users, db.posts.filter q, db.comments⟩ := by
  rcases h with ⟨hp, hc⟩
  exact ⟨fun p hp2 => hp p (List.mem_of_mem_filter hp2), hc⟩

theorem userRefsOK_map_posts (db : DBState) (g : BlogPost → BlogPost)
    (h : userRefsOK db)
    (hg : ∀ p ∈ db.posts, ∃ u ∈ db.users, u.id = (g p).author_id) :
    userRefsOK ⟨db.users, db.posts.map g, db.comments⟩ := by
  rcases h with ⟨hp, hc⟩
  refine ⟨fun p hp2 => ?_, hc⟩
  obtain ⟨q, hq, rfl⟩ := List.mem_map.mp hp2
  exact hg q hq

/-- Claim C1 amended: in every reachable state, every post and every comment
references a live user; the post reference of a comment, by contrast, can
dangle after a delete (see the counterexample). -/
theorem c1_amended_user_refs_live (s : AppState) (h : Reachable s) :
    userRefsOK s.db := by
  induction h with
  | init =>
    exact ⟨fun p hp => absurd hp (List.not_mem_nil p),
      fun c hc => absurd hc (List.not_mem_nil c)⟩
  | step_register f hr ih =>
    rcases f with _ | f
    · exact ih
    · simp only [register]
      split
      · exact ih
      · exact userRefsOK_append_user _ _ ih
  | step_login f hr ih =>
    rcases f with _ | f
    · exact ih
    · simp only [login]
      split
      · exact ih
      · split
        · exact ih
        · exact ih
  | step_logout hr ih => exact ih
  | step_get_all_posts hr ih => exact ih
  | step_show_post pid f hr ih =>
    simp only [show_post]
    split
    · exact ih
    · split
      · split
        · exact ih
        · split
          · exact ih
          · rename_i u heq
            exact userRefsOK_add_comment _ _ ih
              ⟨u, List.mem_of_find?_eq_some heq, rfl⟩
      · exact ih
  | step_add_new_post f today hr ih =>
    simp only [add_new_post, admin_only]
    split
    · exact ih
    · split
      · exact ih
      · split
        · exact ih
        · rename_i uid u heq hne
          rcases f with _ | f
          · exact ih
          · split
            · exact ih
            · split
              · exact ih
              · refine userRefsOK_add_post _ _ ih ?_
                exact ⟨u, List.mem_of_find?_eq_some heq, rfl⟩
  | step_edit_post pid f hr ih =>
    simp only [edit_post, admin_only]
    split
    · exact ih
    · split
      · exact ih
      · split
        · exact ih
        · rename_i uid u hequ hne
          split
          · exact ih
          · rcases f with _ | f
            · exact ih
            · split
              · exact ih
              · split
                · exact ih
                · refine userRefsOK_map_posts _ _ ih (fun p hp => ?_)
                  split
                  · exact ⟨u, List.mem_of_find?_eq_some hequ, rfl⟩
                  · exact ih.1 p hp
  | step_delete_post pid hr ih =>
    simp only [delete_post, admin_only]
    split
    · exact ih
    · split
      · exact ih
      · split
        · exact ih
        · split
          · exact ih
          · exact userRefsOK_filter_posts _ _ ih
  | step_about hr ih => exact ih
  | step_contact hr ih => exact ih

/-- Claim C1 counterexample: the state reached by registering the admin, creating
a post, commenting on it and deleting the post is reachable, yet its comment
still carries the deleted post id, so the referential-integrity invariant is
false there: delete-post does not preserve it. -/
theorem c1_counterexample_dangling_comment :
    Reachable c1Run ∧ dbInvariant c1Run.db = false ∧
    ∃ c ∈ c1Run.db.comments, ∀ p ∈ c1Run.db.posts, p.id ≠ c.post_id :=
  ⟨Reachable.step_delete_post 1
      (Reachable.step_show_post 1 (some ⟨"Nice post"⟩)
        (Reachable.step_add_new_post
          (some ⟨"T", "Sub", "http://img", "Body"⟩) ⟨2024, 4, 5⟩
          (Reachable.step_register (some ⟨"Admin", "a@b.c", "pw"⟩)
            Reachable.init))),
    by decide, by decide⟩

theorem c1_amended_user_refs_live_witness : userRefsOK c1Run.db :=
  c1_amended_user_refs_live c1Run
    (Reachable.step_delete_post 1
      (Reachable.step_show_post 1 (some ⟨"Nice post"⟩)
        (Reachable.step_add_new_post
          (some ⟨"T", "Sub", "http://img", "Body"⟩) ⟨2024, 4, 5⟩
          (Reachable.step_register (some ⟨"Admin", "a@b.c", "pw"⟩)
            Reachable.init))))

end Blog

namespace Blog

theorem c10_first_registered_user_is_admin_witness :
    (register (some ⟨"Ann", "a@b.c", "pw"⟩) initialState).state.session =
      some 1 ∧
    (register (some ⟨"Ann", "a@b.c", "pw"⟩) initialState).state.db.users =
      [⟨1, "Ann", "a@b.c", generate_password_hash "pw"⟩] ∧
    admin_only (fun _ s => ⟨s, [], .renderPage "ok"⟩)
        ⟨⟨[⟨1, "Ann", "a@b.c", "pbkdf2:pw"⟩], [], []⟩, some 1⟩ =
      ⟨⟨⟨[⟨1, "Ann", "a@b.c", "pbkdf2:pw"⟩], [], []⟩, some 1⟩, [],
        .renderPage "ok"⟩ ∧
    admin_only (fun _ s => ⟨s, [], .renderPage "ok"⟩)
        ⟨⟨[⟨1, "Ann", "a@b.c", "pbkdf2:pw"⟩,
            ⟨2, "Bob", "b@c.d", "pbkdf2:x"⟩], [], []⟩, some 2⟩ =
      ⟨⟨⟨[⟨1, "Ann", "a@b.c", "pbkdf2:pw"⟩,
          ⟨2, "Bob", "b@c.d", "pbkdf2:x"⟩], [], []⟩, some 2⟩, [],
        .abort 403⟩ := by
  have h := c10_first_registered_user_is_admin ⟨"Ann", "a@b.c", "pw"⟩
  refine ⟨h.1, h.2.1, ?_, ?_⟩
  · exact (h.2.2 _ _ 1 ⟨1, "Ann", "a@b.c", "pbkdf2:pw"⟩ rfl (by decide)).1
      rfl
  · exact (h.2.2 _ _ 2 ⟨2, "Bob", "b@c.d", "pbkdf2:x"⟩ rfl (by decide)).2
      (by decide)

end Blog
